import Mathlib

/-!
Verification of the zotero-llm-analyse2csv pipeline.

This file gives a shallow embedding of the core of the repository:
the foreign-language title classifier and title translation
(src/analyzer.py, PaperAnalyzer), the per-record enrichment pipeline
(PaperAnalyzer.analyze_paper and PaperAnalyzer._call_llm_analysis),
the pre-batch record filtering and the batch runner (src/main.py,
filter_papers and analyze_papers_batch), and the collection path
resolution (src/selector.py, CollectionManager.get_collection_path).

External services (PDF text extraction, the tokenizer used for
truncation, the chat-completion generation service, the JSON parser
of the standard library, and the collection database lookup) are
modelled as explicit oracle parameters bundled in AnalyzeEnv, so
every theorem quantifies over their behaviour.  Machine floats in
the source appear only in the 0.7 ratio threshold, modelled here by
exact rational arithmetic, and in the configurable delay, which no
claim touches.  Python exceptions are modelled with Except; Python
string slicing s[:n] is pyTake (both slice by code points).
-/

set_option maxRecDepth 8000

/-! ## Data model (dict shapes produced by zotero_reader.py) -/

structure Creator where
  creatorType : String
  name : String
  firstName : String
  lastName : String
deriving DecidableEq

structure Attachment where
  key : Option String
  contentType : Option String
  path : Option String
deriving DecidableEq

structure Paper where
  key : Option String
  title : Option String
  typeName : Option String
  abstractNote : Option String
  creators : List Creator
  attachments : List Attachment
deriving DecidableEq

/-- Result dataclass PaperAnalysis of src/analyzer.py (lines 12-22),
with the same field defaults as the Python dataclass. -/
structure PaperAnalysis where
  title : String
  translated_title : String := ""
  authors : String := ""
  collection_path : String := ""
  abstract : String := ""
  innovation_points : String := ""
  summary : String := ""
  error_message : String := ""
deriving DecidableEq

/-! ## Foreign-language title classifier (analyzer.py lines 255-268) -/

/-- Model of the Python predicate char.isascii(). -/
def pyIsAscii (c : Char) : Bool := c.toNat < 128

/-- Model of the Python predicate char.isalpha() on the character
ranges this repository meets (ASCII letters, Latin supplements,
Greek, Cyrillic, kana, CJK unified ideographs).  Every theorem
below depends only on counting characters with this classifier,
never on its exact extension beyond these ranges. -/
def pyIsAlpha (c : Char) : Bool :=
  (97 ≤ c.toNat && c.toNat ≤ 122) ||
  (65 ≤ c.toNat && c.toNat ≤ 90) ||
  (0xC0 ≤ c.toNat && c.toNat ≤ 0x24F && c.toNat ≠ 0xD7 && c.toNat ≠ 0xF7) ||
  (0x370 ≤ c.toNat && c.toNat ≤ 0x3FF) ||
  (0x400 ≤ c.toNat && c.toNat ≤ 0x4FF) ||
  (0x3040 ≤ c.toNat && c.toNat ≤ 0x30FF) ||
  (0x4E00 ≤ c.toNat && c.toNat ≤ 0x9FFF)

/-- english_chars of _is_english_title: count of characters that are
both ASCII and alphabetic. -/
def englishCharCount (title : String) : Nat :=
  (title.toList.filter (fun c => pyIsAscii c && pyIsAlpha c)).length

/-- total_chars of _is_english_title: count of alphabetic characters. -/
def alphaCharCount (title : String) : Nat :=
  (title.toList.filter (fun c => pyIsAlpha c)).length

/-- PaperAnalyzer._is_english_title (analyzer.py lines 255-268).  The
source compares the float english_chars / total_chars to 0.7; we model
the ratio test by exact cross multiplication (7 * total < 10 * english),
which agrees with the float comparison for every realistic title
length.  The theorem is_english_title_ratio below recovers the rational
ratio formulation. -/
def is_english_title (title : String) : Bool :=
  if title = "" then false
  else
    let english_chars := englishCharCount title
    let total_chars := alphaCharCount title
    if total_chars = 0 then false
    else decide (7 * total_chars < 10 * english_chars)

/-! ## Pre-batch filtering (main.py lines 63-97) -/

/-- Model of Python str.lower restricted to ASCII case folding
(Char.toLower lowers exactly the ASCII uppercase letters). -/
def pyLower (s : String) : String := s.map Char.toLower

/-- Model of the Python substring test needle in haystack. -/
def pyInStr (needle haystack : String) : Bool :=
  decide (needle.toList <:+: haystack.toList)

/-- The configuration fields consumed by filter_papers (config.py:
limit is Optional and the wizard keeps it positive or None). -/
structure AnalyzerConfig where
  include_types : List String
  exclude_keywords : List String
  limit : Option Nat
deriving DecidableEq

/-- Stage 1 of filter_papers: keep records whose typeName is in the
allow-list, applied only when the list is non-empty (main.py 77-79). -/
def filterByType (config : AnalyzerConfig) (papers : List Paper) : List Paper :=
  if config.include_types ≠ [] then
    papers.filter (fun p =>
      match p.typeName with
      | some t => config.include_types.contains t
      | none => false)
  else papers

/-- Stage 2 of filter_papers: drop records whose lowered title
contains any lowered exclude keyword (main.py 82-90). -/
def filterByKeywords (config : AnalyzerConfig) (papers : List Paper) : List Paper :=
  if config.exclude_keywords ≠ [] then
    papers.filter (fun p =>
      ! config.exclude_keywords.any (fun kw =>
        pyInStr (pyLower kw) (pyLower (p.title.getD ""))))
  else papers

/-- Stage 3 of filter_papers: truncate to the first limit records when
limit is truthy and the list exceeds it (main.py 93-95). -/
def applyLimit (config : AnalyzerConfig) (papers : List Paper) : List Paper :=
  match config.limit with
  | some n => if n ≠ 0 && decide (papers.length > n) then papers.take n else papers
  | none => papers

/-- filter_papers of main.py lines 63-97: the three stages in the
fixed source order. -/
def filter_papers (papers : List Paper) (config : AnalyzerConfig) : List Paper :=
  applyLimit config (filterByKeywords config (filterByType config papers))

/-! ## Enrichment pipeline (analyzer.py, PaperAnalyzer) -/

/-- One visible action of the pipeline towards the generation service:
a chat-completion request (temperature recorded in tenths to stay in
exact arithmetic: 1 stands for 0.1, 3 for 0.3) or a retry pause in
seconds. -/
inductive GenEvent where
  | request (temperatureTenths : Nat) (maxTokens : Nat)
  | sleep (seconds : Nat)
deriving DecidableEq

/-- The external services the pipeline consults, as oracles:
the outcome of the single title-translation call, the per-attempt
outcome of the analysis call (transport fault or response text), the
JSON parser of the standard library (decode error, or an object whose
string fields are given as an association list), the tokenizer-based
truncation, the PDF text extractor composed with attachment path
resolution (empty string on failure or missing file), and the optional
collection manager whose lookup may raise. -/
structure AnalyzeEnv where
  translationResponse : Except String String
  analysisResponse : Nat → Except String String
  jsonLoads : String → Except String (List (String × String))
  truncate : String → String
  pdfText : Attachment → String
  collection_manager : Option (String → Except String (List String))

/-- Model of Python str.strip(). -/
def pyStrip (s : String) : String := s.trim

/-- Model of the Python slice s[:n] (by code points). -/
def pyTake (s : String) (n : Nat) : String := String.mk (s.toList.take n)

/-- The name computed for one creator inside _format_authors
(analyzer.py lines 216-221). -/
def creatorName (c : Creator) : String :=
  let name := pyStrip c.name
  if name = "" then pyStrip (pyStrip c.firstName ++ " " ++ pyStrip c.lastName)
  else name

/-- PaperAnalyzer._format_authors (analyzer.py lines 212-225). -/
def format_authors (creators : List Creator) : String :=
  let author_names :=
    ((creators.filter (fun c => c.creatorType = "author")).map creatorName).filter
      (fun n => n ≠ "")
  if author_names ≠ [] then String.intercalate "; " author_names
  else "未知作者"

/-- PaperAnalyzer._translate_title (analyzer.py lines 270-300): for a
foreign-classified title, one generation call with temperature 0.1 and
a 200-token output cap; the stripped response on success, the empty
string on any failure; no call at all otherwise. -/
def translate_title (env : AnalyzeEnv) (title : String) :
    String × List GenEvent :=
  if is_english_title title = false then ("", [])
  else
    match env.translationResponse with
    | Except.ok resp => (pyStrip resp, [GenEvent.request 1 200])
    | Except.error _ => ("", [GenEvent.request 1 200])

/-- The code-fence stripping applied to a response before JSON parsing
(analyzer.py lines 371-374); the response has already been stripped. -/
def strip_code_fences (content : String) : String :=
  if content.startsWith "```json" then
    pyStrip ((content.replace "```json" "").replace "```" "")
  else if content.startsWith "```" then
    pyStrip (content.replace "```" "")
  else content

/-- Model of Python dict.get with a default, on the association lists
returned by the JSON oracle. -/
def dictGet (d : List (String × String)) (k fallback : String) : String :=
  match d.find? (fun kv => kv.1 = k) with
  | some kv => kv.2
  | none => fallback

/-- Model of the Python membership test key in dict. -/
def dictHas (d : List (String × String)) (k : String) : Bool :=
  (d.find? (fun kv => kv.1 = k)).isSome

/-- required_fields of _call_llm_analysis (analyzer.py line 381). -/
def required_fields : List String :=
  ["abstract", "innovation_points", "summary"]

/-- max_retries of _call_llm_analysis (analyzer.py line 356). -/
def max_retries : Nat := 3

/-- The message of the ValueError raised when a parsed response lacks a
required field (analyzer.py line 386), as Python renders the list. -/
def missing_fields_error : String :=
  "响应缺少必需字段: [\x27abstract\x27, \x27innovation_points\x27, \x27summary\x27]"

/-- The message (CPython 3.11+ wording) of the UnboundLocalError raised
when the except clause of analyzer.py line 388 evaluates the
function-local name json before the import of line 377 has run. -/
def unbound_local_error : String :=
  "cannot access local variable \x27json\x27 where it is not associated with a value"

/-- The degraded result synthesized when the final attempt fails JSON
parsing (analyzer.py lines 392-396). -/
def degraded_result (truncated_text content : String) :
    List (String × String) :=
  [("abstract", pyTake truncated_text 300),
   ("innovation_points", "解析失败，原始响应: " ++ pyTake content 200),
   ("summary", "解析失败，原始响应: " ++ pyTake content 200)]

/-- The retry loop of _call_llm_analysis (analyzer.py lines 356-405):
attempt is the 0-based loop counter, the fuel argument is the number of
loop iterations still available (max_retries at the top call, so fuel 0
is the unreachable fall-through raise of line 405).  The import of json
at line 377 is function-local and sits inside the try block, after the
request: json_bound records whether it has executed in this call.  Each
iteration issues one request.  On a transport fault with json still
unbound (which can only be the first attempt), evaluating the except
clause of line 388 itself raises UnboundLocalError, which propagates at
once: no sleep, no retry, and the original fault is replaced.  With
json bound, a transport fault sleeps 2 seconds and retries on a
non-final attempt and re-raises on the final one.  A successful
response runs the import, so json is bound from then on; a JSON decode
fault then retries without sleeping and synthesizes the degraded result
on the final attempt; a parsed object missing a required field raises
ValueError, handled like a bound-state transport fault. -/
def call_llm_go (env : AnalyzeEnv) (truncated_text : String) :
    Bool → Nat → Nat → Except String (List (String × String)) × List GenEvent
  | _, _, 0 => (Except.error "LLM 分析失败，已达到最大重试次数", [])
  | json_bound, attempt, fuel + 1 =>
    match env.analysisResponse attempt with
    | Except.error e =>
      if json_bound = false then
        (Except.error unbound_local_error, [GenEvent.request 3 2000])
      else if attempt < max_retries - 1 then
        let rest := call_llm_go env truncated_text true (attempt + 1) fuel
        (rest.1, GenEvent.request 3 2000 :: GenEvent.sleep 2 :: rest.2)
      else (Except.error e, [GenEvent.request 3 2000])
    | Except.ok response =>
      let content := strip_code_fences (pyStrip response)
      match env.jsonLoads content with
      | Except.error _ =>
        if attempt = max_retries - 1 then
          (Except.ok (degraded_result truncated_text content),
           [GenEvent.request 3 2000])
        else
          let rest := call_llm_go env truncated_text true (attempt + 1) fuel
          (rest.1, GenEvent.request 3 2000 :: rest.2)
      | Except.ok result =>
        if required_fields.all (fun f => dictHas result f) then
          (Except.ok result, [GenEvent.request 3 2000])
        else
          if attempt < max_retries - 1 then
            let rest := call_llm_go env truncated_text true (attempt + 1) fuel
            (rest.1, GenEvent.request 3 2000 :: GenEvent.sleep 2 :: rest.2)
          else (Except.error missing_fields_error, [GenEvent.request 3 2000])

/-- PaperAnalyzer._call_llm_analysis (analyzer.py lines 302-405): the
text is truncated to the token budget and the retry loop runs with
max_retries attempts, the local json name initially unbound.  The
prompt bodies (lines 309-354) carry no information any claim inspects;
the request events record the temperature 0.3 and the 2000-token cap of
the analysis call. -/
def call_llm_analysis (env : AnalyzeEnv) (text : String) :
    Except String (List (String × String)) × List GenEvent :=
  call_llm_go env (env.truncate text) false 0 max_retries

/-- The attachment loop of analyze_paper (analyzer.py lines 156-167):
the first non-empty extraction among attachments declared as PDF, the
empty string when there is none. -/
def get_full_text (pdfText : Attachment → String) : List Attachment → String
  | [] => ""
  | a :: rest =>
    if a.contentType = some "application/pdf" then
      let t := pdfText a
      if t ≠ "" then t else get_full_text pdfText rest
    else get_full_text pdfText rest

/-- The collection-path computation of analyze_paper (analyzer.py lines
145-152): consulted only when a collection manager is present and the
record key is truthy; a lookup fault downgrades to the sentinel 未知,
an empty path list to 未分类. -/
def get_collection_path_field (env : AnalyzeEnv) (paper : Paper) : String :=
  match env.collection_manager, paper.key with
  | some cm, some k =>
    if k ≠ "" then
      match cm k with
      | Except.ok paths =>
        if paths ≠ [] then String.intercalate " | " paths else "未分类"
      | Except.error _ => "未知"
    else ""
  | _, _ => ""

/-- PaperAnalyzer.analyze_paper (analyzer.py lines 122-210), returning
the result together with the trace of generation-service events. -/
def analyze_paper (env : AnalyzeEnv) (paper : Paper) :
    PaperAnalysis × List GenEvent :=
  let title := paper.title.getD "未知标题"
  let authors := format_authors paper.creators
  let original_abstract := paper.abstractNote.getD ""
  let tr := translate_title env title
  let collection_path := get_collection_path_field env paper
  let full_text := get_full_text env.pdfText paper.attachments
  if full_text = "" ∧ original_abstract = "" then
    ({ title := title, translated_title := tr.1, authors := authors,
       collection_path := collection_path, abstract := "无可用摘要",
       innovation_points := "无法分析 - 缺少文本内容",
       summary := "无法分析 - 缺少文本内容",
       error_message := "缺少文本内容" }, tr.2)
  else
    let analysis_text := if full_text ≠ "" then full_text else original_abstract
    match call_llm_analysis env analysis_text with
    | (Except.ok result, ev2) =>
      ({ title := title, translated_title := tr.1, authors := authors,
         collection_path := collection_path,
         abstract := dictGet result "abstract"
           (if original_abstract ≠ "" then original_abstract else "无摘要"),
         innovation_points := dictGet result "innovation_points" "",
         summary := dictGet result "summary" "",
         error_message := "" }, tr.2 ++ ev2)
    | (Except.error e, ev2) =>
      ({ title := title, translated_title := tr.1, authors := authors,
         collection_path := collection_path,
         abstract := if original_abstract ≠ "" then original_abstract else "无摘要",
         innovation_points := "分析失败: " ++ e,
         summary := "分析失败: " ++ e,
         error_message := e }, tr.2 ++ ev2)

/-! ## Batch runner (main.py lines 100-160) -/

/-- A fault raised by per-record processing, as the batch runner sees
it: a cooperative cancellation (KeyboardInterrupt) or any other
exception carrying a message. -/
inductive PyExc where
  | keyboardInterrupt
  | exc (msg : String)
deriving DecidableEq

/-- The field names accepted by the PaperAnalysis dataclass initializer
(analyzer.py lines 12-22). -/
def paper_analysis_field_names : List String :=
  ["title", "translated_title", "authors", "collection_path", "abstract",
   "innovation_points", "summary", "error_message"]

/-- Model of calling the PaperAnalysis dataclass initializer with
keyword arguments: a keyword outside the declared fields raises
TypeError, otherwise the named fields are set and the rest keep their
dataclass defaults. -/
def mk_paper_analysis (kwargs : List (String × String)) :
    Except String PaperAnalysis :=
  if kwargs.all (fun kv => paper_analysis_field_names.contains kv.1) then
    Except.ok
      { title := dictGet kwargs "title" "",
        translated_title := dictGet kwargs "translated_title" "",
        authors := dictGet kwargs "authors" "",
        collection_path := dictGet kwargs "collection_path" "",
        abstract := dictGet kwargs "abstract" "",
        innovation_points := dictGet kwargs "innovation_points" "",
        summary := dictGet kwargs "summary" "",
        error_message := dictGet kwargs "error_message" "" }
  else Except.error "TypeError: unexpected keyword argument original_abstract"

/-- The keyword arguments the batch error handler passes to
PaperAnalysis (main.py lines 144-152), verbatim: note the
original_abstract keyword, which is not a field of the dataclass. -/
def batch_error_kwargs (paper : Paper) (e : String) :
    List (String × String) :=
  [("title", paper.title.getD "未知标题"),
   ("authors", String.intercalate "; " (paper.creators.map (fun c => c.name))),
   ("abstract", paper.abstractNote.getD ""),
   ("innovation_points", "分析失败: " ++ e),
   ("summary", "分析失败: " ++ e),
   ("original_abstract", paper.abstractNote.getD ""),
   ("error_message", e)]

/-- analyze_papers_batch (main.py lines 100-160): records are processed
in order; a KeyboardInterrupt returns the results accumulated so far; a
per-record exception enters the handler, which builds a synthetic error
result through the dataclass initializer and continues — and any
exception the handler itself raises propagates and aborts the batch.
The per-record pacing delay (line 135) produces no observable value and
is not recorded. -/
def analyze_papers_batch (analyze : Paper → Except PyExc PaperAnalysis) :
    List Paper → Except String (List PaperAnalysis)
  | [] => Except.ok []
  | paper :: rest =>
    match analyze paper with
    | Except.ok a =>
      match analyze_papers_batch analyze rest with
      | Except.ok more => Except.ok (a :: more)
      | Except.error e => Except.error e
    | Except.error PyExc.keyboardInterrupt => Except.ok []
    | Except.error (PyExc.exc msg) =>
      match mk_paper_analysis (batch_error_kwargs paper msg) with
      | Except.ok ea =>
        match analyze_papers_batch analyze rest with
        | Except.ok more => Except.ok (ea :: more)
        | Except.error e => Except.error e
      | Except.error te => Except.error te

/-! ## Collection resolver (selector.py, CollectionManager) -/

/-- The per-collection data loaded by CollectionManager._load_collections
(selector.py lines 16-27, 73-81). -/
structure ZoteroCollection where
  key : String
  name : String
  parent_key : Option String
deriving DecidableEq

/-- Model of the key lookup in the collections dict (keys are unique in
one snapshot, so the first match is the match). -/
def find_collection (colls : List ZoteroCollection) (key : String) :
    Option ZoteroCollection :=
  colls.find? (fun c => c.key = key)

/-- The upward walk of get_collection_path (selector.py lines 192-202):
follow parent links, prepending each parent name, stopping at a
collection with no (or empty, hence falsy) parent key or when the
parent lookup fails.  The source runs an unbounded while loop; the fuel
argument only makes recursion structural and never runs out on the
acyclic data the loop is used on. -/
def parent_walk (colls : List ZoteroCollection) :
    Nat → ZoteroCollection → List String → List String
  | 0, _, path_parts => path_parts
  | fuel + 1, current, path_parts =>
    match current.parent_key with
    | none => path_parts
    | some pk =>
      if pk = "" then path_parts
      else
        match find_collection colls pk with
        | some parent => parent_walk colls fuel parent (parent.name :: path_parts)
        | none => path_parts

/-- CollectionManager.get_collection_path (selector.py lines 186-203):
empty string for an unknown key, otherwise the accumulated names joined
by " / ". -/
def get_collection_path (colls : List ZoteroCollection)
    (collection_key : String) : String :=
  match find_collection colls collection_key with
  | none => ""
  | some c =>
    String.intercalate " / " (parent_walk colls colls.length c [c.name])

/-- A collection is a root for the walk when its parent key is absent
or empty (both falsy in the source). -/
def IsWalkRoot (c : ZoteroCollection) : Prop :=
  c.parent_key = none ∨ c.parent_key = some ""

/-- AncestorChain colls c anc: anc lists the proper ancestors of c from
its parent up to a root, every link resolving in colls. -/
def AncestorChain (colls : List ZoteroCollection) :
    ZoteroCollection → List ZoteroCollection → Prop
  | c, [] => IsWalkRoot c
  | c, p :: rest =>
    ∃ pk, c.parent_key = some pk ∧ pk ≠ "" ∧
      find_collection colls pk = some p ∧ AncestorChain colls p rest

/-- DanglingChain colls c anc: anc lists resolvable proper ancestors of
c, and the last collection of the walk names a parent key that is not
in colls (a dangling parent). -/
def DanglingChain (colls : List ZoteroCollection) :
    ZoteroCollection → List ZoteroCollection → Prop
  | c, [] =>
    ∃ pk, c.parent_key = some pk ∧ pk ≠ "" ∧ find_collection colls pk = none
  | c, p :: rest =>
    ∃ pk, c.parent_key = some pk ∧ pk ≠ "" ∧
      find_collection colls pk = some p ∧ DanglingChain colls p rest

/-! ## Concrete instances used by witnesses and counterexamples -/

/-- Recognizes the generation-service requests in an event trace. -/
def is_gen_request : GenEvent → Bool
  | GenEvent.request _ _ => true
  | GenEvent.sleep _ => false

/-- A record with an English-classified title, no attachments and an
empty abstract. -/
def noTextPaper : Paper :=
  { key := none, title := some "Deep Learning for Everyone",
    typeName := none, abstractNote := some "", creators := [],
    attachments := [] }

/-- An environment whose translation call succeeds and whose analysis
calls all fail at the transport level. -/
def noTextEnv : AnalyzeEnv :=
  { translationResponse := Except.ok "面向大众的深度学习",
    analysisResponse := fun _ => Except.error "transport fault",
    jsonLoads := fun _ => Except.error "Expecting value",
    truncate := fun s => s,
    pdfText := fun _ => "",
    collection_manager := none }

/-- A record with a non-foreign title and a non-empty abstract. -/
def abstractOnlyPaper : Paper :=
  { key := none, title := some "深度学习综述", typeName := none,
    abstractNote := some "An abstract of the paper.", creators := [],
    attachments := [] }

/-- An environment whose analysis responses always arrive but never
parse as JSON. -/
def parseFailEnv : AnalyzeEnv :=
  { translationResponse := Except.error "unused",
    analysisResponse := fun _ => Except.ok "not a json object",
    jsonLoads := fun _ => Except.error "Expecting value: line 1 column 1",
    truncate := fun s => s,
    pdfText := fun _ => "",
    collection_manager := none }

/-- An environment whose analysis calls raise a distinct transport
fault on every attempt. -/
def transportFailEnv : AnalyzeEnv :=
  { translationResponse := Except.error "unused",
    analysisResponse := fun i => Except.error ("connection reset " ++ toString i),
    jsonLoads := fun _ => Except.error "unused",
    truncate := fun s => s,
    pdfText := fun _ => "",
    collection_manager := none }

/-- An environment whose first analysis response fails to parse and
whose second parses with all required fields. -/
def retryThenOkEnv : AnalyzeEnv :=
  { translationResponse := Except.error "unused",
    analysisResponse := fun i =>
      if i = 0 then Except.ok "garbled" else Except.ok "good",
    jsonLoads := fun s =>
      if s = "good" then
        Except.ok [("abstract", "a"), ("innovation_points", "b"),
                   ("summary", "c")]
      else Except.error "Expecting value",
    truncate := fun s => s,
    pdfText := fun _ => "",
    collection_manager := none }

/-- An environment whose translation call fails; the analysis responses
parse with all required fields. -/
def translationFailEnv : AnalyzeEnv :=
  { translationResponse := Except.error "translation transport fault",
    analysisResponse := fun _ => Except.ok "good",
    jsonLoads := fun s =>
      if s = "good" then
        Except.ok [("abstract", "a"), ("innovation_points", "b"),
                   ("summary", "c")]
      else Except.error "Expecting value",
    truncate := fun s => s,
    pdfText := fun _ => "",
    collection_manager := none }

/-- The same environment with a succeeding translation call. -/
def translationOkEnv : AnalyzeEnv :=
  { translationFailEnv with translationResponse := Except.ok "大众深度学习" }

/-- A batch record for the batch-runner evaluation. -/
def batchDemoPaper (i : Nat) : Paper :=
  { key := none, title := some ("paper " ++ toString i),
    typeName := some "journalArticle",
    abstractNote := some "An abstract.", creators := [], attachments := [] }

/-- A per-record analysis that raises on the third record: processing
of record 3 faults, every other record succeeds. -/
def batchDemoAnalyze (p : Paper) : Except PyExc PaperAnalysis :=
  if p.title = some "paper 3" then
    Except.error (PyExc.exc "AttributeError: NoneType object has no attribute strip")
  else Except.ok { title := p.title.getD "未知标题" }

/-- A record with a non-foreign title, no attachments and an empty
abstract. -/
def noTextChinesePaper : Paper :=
  { key := none, title := some "深度学习综述", typeName := none,
    abstractNote := some "", creators := [], attachments := [] }

/-- A record with an English-classified title and a non-empty
abstract. -/
def englishPaper : Paper :=
  { key := none, title := some "Deep Learning for Everyone",
    typeName := none, abstractNote := some "An abstract.", creators := [],
    attachments := [] }

/-- A concrete collection forest: Root / Mid / Leaf, plus a collection
whose parent key resolves nowhere. -/
def demoCollections : List ZoteroCollection :=
  [{ key := "R", name := "Root", parent_key := none },
   { key := "M", name := "Mid", parent_key := some "R" },
   { key := "L", name := "Leaf", parent_key := some "M" },
   { key := "D", name := "Dangling", parent_key := some "X" }]

/-! ## Theorems: title classifier -/

/-- C5: for every title, is_english_title returns true exactly when the
ratio of ASCII-alphabetic characters to all alphabetic characters
strictly exceeds 0.7; the all-ASCII title classifies as foreign and the
all-CJK title does not. -/
theorem is_english_title_ratio :
    (∀ t : String,
      is_english_title t = true ↔
        (7 : ℚ) / 10 < (englishCharCount t : ℚ) / (alphaCharCount t : ℚ)) ∧
    is_english_title "Deep Learning for Everyone" = true ∧
    is_english_title "深度学习综述" = false := by
  refine ⟨fun t => ?_, by decide, by decide⟩
  by_cases ht : t = ""
  · subst ht
    have h1 : englishCharCount "" = 0 := rfl
    have h2 : alphaCharCount "" = 0 := rfl
    rw [h1, h2]
    simp only [is_english_title, if_pos rfl]
    norm_num
  · by_cases h0 : alphaCharCount t = 0
    · have he : englishCharCount t = 0 := by
        unfold englishCharCount
        unfold alphaCharCount at h0
        rw [List.length_eq_zero] at h0 ⊢
        rw [List.filter_eq_nil_iff] at h0 ⊢
        intro c hc
        simp only [Bool.and_eq_true, not_and]
        intro _
        exact h0 c hc
      rw [he, h0]
      simp only [is_english_title, ht, if_false, h0, if_pos rfl]
      norm_num
    · have ha : 0 < (alphaCharCount t : ℚ) :=
        Nat.cast_pos.mpr (Nat.pos_of_ne_zero h0)
      simp only [is_english_title, ht, if_false, h0, if_neg h0,
        decide_eq_true_iff]
      rw [div_lt_div_iff₀ (by norm_num : (0 : ℚ) < 10) ha,
        mul_comm (englishCharCount t : ℚ) 10]
      exact_mod_cast Iff.rfl

/-- C9: the classifier is total (always returns a boolean) and the
zero-denominator cases are guarded: an empty title, or a title with no
alphabetic characters at all, classifies as not foreign, so the ratio
denominator is never zero when the division is reached. -/
theorem is_english_title_total_guarded :
    ∀ t : String,
      (is_english_title t = true ∨ is_english_title t = false) ∧
      (t = "" → is_english_title t = false) ∧
      (alphaCharCount t = 0 → is_english_title t = false) := by
  intro t
  refine ⟨?_, ?_, ?_⟩
  · cases h : is_english_title t
    · exact Or.inr rfl
    · exact Or.inl rfl
  · intro h
    subst h
    decide
  · intro h
    unfold is_english_title
    by_cases ht : t = ""
    · simp [ht]
    · simp [ht, h]

/-- Witness for C9 at concrete inputs: the empty title and a title with
no alphabetic characters both classify as not foreign. -/
theorem is_english_title_total_guarded_witness :
    is_english_title "" = false ∧ is_english_title "123 + 456" = false :=
  ⟨(is_english_title_total_guarded "").2.1 rfl,
   (is_english_title_total_guarded "123 + 456").2.2 (by decide)⟩

/-! ## Theorems: pre-batch filtering -/

/-- C7: filter_papers applies the type allow-list, then the
case-insensitive title exclude-list, then the record cap, in that
fixed order; the result is a subsequence of the input (so order is
preserved), and when a positive limit is configured the result has at
most limit records. -/
theorem filter_papers_spec :
    ∀ (papers : List Paper) (config : AnalyzerConfig),
      filter_papers papers config =
        applyLimit config (filterByKeywords config (filterByType config papers)) ∧
      (filter_papers papers config).Sublist papers ∧
      (∀ n : Nat, config.limit = some n → 0 < n →
        (filter_papers papers config).length ≤ n) := by
  intro papers config
  have h1 : (filterByType config papers).Sublist papers := by
    unfold filterByType
    split
    · exact List.filter_sublist papers
    · exact List.Sublist.refl papers
  have h2 : (filterByKeywords config (filterByType config papers)).Sublist
      (filterByType config papers) := by
    unfold filterByKeywords
    split
    · exact List.filter_sublist _
    · exact List.Sublist.refl _
  have h3 : (filter_papers papers config).Sublist
      (filterByKeywords config (filterByType config papers)) := by
    unfold filter_papers applyLimit
    split
    · split
      · exact List.take_sublist _ _
      · exact List.Sublist.refl _
    · exact List.Sublist.refl _
  refine ⟨rfl, h3.trans (h2.trans h1), ?_⟩
  intro n hn hpos
  unfold filter_papers applyLimit
  rw [hn]
  simp only
  split
  · simp only [List.length_take]
    exact min_le_left _ _
  · rename_i hcond
    rw [Bool.and_eq_true, decide_eq_true_iff, decide_eq_true_iff] at hcond
    push_neg at hcond
    by_cases hz : n = 0
    · omega
    · have := hcond (by simpa using hz)
      omega

/-- Witness for C7: a concrete 3-record batch with a limit of 1 yields
a subsequence of the input of length at most 1. -/
theorem filter_papers_spec_witness :
    (filter_papers
        [{ key := none, title := some "A survey", typeName := some "journalArticle",
           abstractNote := none, creators := [], attachments := [] },
         { key := none, title := some "B report", typeName := some "journalArticle",
           abstractNote := none, creators := [], attachments := [] },
         { key := none, title := some "C note", typeName := some "journalArticle",
           abstractNote := none, creators := [], attachments := [] }]
        { include_types := ["journalArticle"], exclude_keywords := ["survey"],
          limit := some 1 }).Sublist
      [{ key := none, title := some "A survey", typeName := some "journalArticle",
         abstractNote := none, creators := [], attachments := [] },
       { key := none, title := some "B report", typeName := some "journalArticle",
         abstractNote := none, creators := [], attachments := [] },
       { key := none, title := some "C note", typeName := some "journalArticle",
         abstractNote := none, creators := [], attachments := [] }] ∧
    (filter_papers
        [{ key := none, title := some "A survey", typeName := some "journalArticle",
           abstractNote := none, creators := [], attachments := [] },
         { key := none, title := some "B report", typeName := some "journalArticle",
           abstractNote := none, creators := [], attachments := [] },
         { key := none, title := some "C note", typeName := some "journalArticle",
           abstractNote := none, creators := [], attachments := [] }]
        { include_types := ["journalArticle"], exclude_keywords := ["survey"],
          limit := some 1 }).length ≤ 1 :=
  ⟨(filter_papers_spec _ _).2.1,
   (filter_papers_spec _ _).2.2 1 rfl (by decide)⟩


/-! ## Helper lemmas on the pipeline -/

theorem translate_title_trace (env : AnalyzeEnv) (t : String) :
    (translate_title env t).2 =
      if is_english_title t = true then [GenEvent.request 1 200] else [] := by
  unfold translate_title
  cases h : is_english_title t
  · simp [h]
  · simp only [Bool.true_eq_false, if_false, if_true, reduceIte]
    cases env.translationResponse <;> rfl

theorem translate_title_of_error (env : AnalyzeEnv) (t err : String)
    (h : env.translationResponse = Except.error err) :
    (translate_title env t).1 = "" := by
  unfold translate_title
  cases hb : is_english_title t
  · simp [hb]
  · simp [hb, h]

theorem call_llm_go_request_count (env : AnalyzeEnv) (T : String) :
    ∀ (fuel : Nat) (jb : Bool) (attempt : Nat),
      ((call_llm_go env T jb attempt fuel).2.filter is_gen_request).length ≤
        fuel := by
  intro fuel
  induction fuel with
  | zero => intro jb attempt; simp [call_llm_go]
  | succ n ih =>
    intro jb attempt
    cases h : env.analysisResponse attempt with
    | error e =>
      simp only [call_llm_go, h]
      split
      · simp [is_gen_request]
      · split
        · have hrec := ih true (attempt + 1)
          simp only [List.filter_cons, is_gen_request, if_true, if_false,
            List.length_cons, Bool.false_eq_true, reduceIte]
          omega
        · simp [is_gen_request]
    | ok response =>
      cases hj : env.jsonLoads (strip_code_fences (pyStrip response)) with
      | error je =>
        simp only [call_llm_go, h, hj]
        split
        · simp [is_gen_request]
        · have hrec := ih true (attempt + 1)
          simp only [List.filter_cons, is_gen_request, if_true,
            List.length_cons]
          omega
      | ok result =>
        simp only [call_llm_go, h, hj]
        split
        · simp [is_gen_request]
        · split
          · have hrec := ih true (attempt + 1)
            simp only [List.filter_cons, is_gen_request, if_true, if_false,
              List.length_cons, Bool.false_eq_true, reduceIte]
            omega
          · simp [is_gen_request]

theorem call_llm_go_events (env : AnalyzeEnv) (T : String) :
    ∀ (fuel : Nat) (jb : Bool) (attempt : Nat) (ev : GenEvent),
      ev ∈ (call_llm_go env T jb attempt fuel).2 →
        ev = GenEvent.request 3 2000 ∨ ev = GenEvent.sleep 2 := by
  intro fuel
  induction fuel with
  | zero => intro jb attempt ev hev; simp [call_llm_go] at hev
  | succ n ih =>
    intro jb attempt ev hev
    cases h : env.analysisResponse attempt with
    | error e =>
      simp only [call_llm_go, h] at hev
      split at hev
      · simp only [List.mem_singleton] at hev
        exact Or.inl hev
      · split at hev
        · simp only [List.mem_cons] at hev
          rcases hev with h1 | h1 | h1
          · exact Or.inl h1
          · exact Or.inr h1
          · exact ih true (attempt + 1) ev h1
        · simp only [List.mem_singleton] at hev
          exact Or.inl hev
    | ok response =>
      cases hj : env.jsonLoads (strip_code_fences (pyStrip response)) with
      | error je =>
        simp only [call_llm_go, h, hj] at hev
        split at hev
        · simp only [List.mem_singleton] at hev
          exact Or.inl hev
        · simp only [List.mem_cons] at hev
          rcases hev with h1 | h1
          · exact Or.inl h1
          · exact ih true (attempt + 1) ev h1
      | ok result =>
        simp only [call_llm_go, h, hj] at hev
        split at hev
        · simp only [List.mem_singleton] at hev
          exact Or.inl hev
        · split at hev
          · simp only [List.mem_cons] at hev
            rcases hev with h1 | h1 | h1
            · exact Or.inl h1
            · exact Or.inr h1
            · exact ih true (attempt + 1) ev h1
          · simp only [List.mem_singleton] at hev
            exact Or.inl hev

theorem call_llm_all_parse_fail (env : AnalyzeEnv) (text : String)
    (resp je : Nat → String)
    (hr : ∀ i, i < max_retries → env.analysisResponse i = Except.ok (resp i))
    (hp : ∀ i, i < max_retries →
      env.jsonLoads (strip_code_fences (pyStrip (resp i))) =
        Except.error (je i)) :
    call_llm_analysis env text =
      (Except.ok (degraded_result (env.truncate text)
          (strip_code_fences (pyStrip (resp 2)))),
       [GenEvent.request 3 2000, GenEvent.request 3 2000,
        GenEvent.request 3 2000]) := by
  unfold call_llm_analysis max_retries
  simp only [call_llm_go, hr 0 (by norm_num [max_retries]),
    hr 1 (by norm_num [max_retries]), hr 2 (by norm_num [max_retries]),
    hp 0 (by norm_num [max_retries]), hp 1 (by norm_num [max_retries]),
    hp 2 (by norm_num [max_retries]), max_retries]
  norm_num

theorem call_llm_go_congr (env env2 : AnalyzeEnv) (T : String)
    (h1 : env2.analysisResponse = env.analysisResponse)
    (h2 : env2.jsonLoads = env.jsonLoads) :
    ∀ (fuel : Nat) (jb : Bool) (attempt : Nat),
      call_llm_go env2 T jb attempt fuel =
        call_llm_go env T jb attempt fuel := by
  intro fuel
  induction fuel with
  | zero => intro jb attempt; rfl
  | succ n ih =>
    intro jb attempt
    simp only [call_llm_go, h1, h2, ih]

theorem analyze_paper_field_values (env : AnalyzeEnv) (paper : Paper) :
    (analyze_paper env paper).1.title = paper.title.getD "未知标题" ∧
    (analyze_paper env paper).1.translated_title =
      (translate_title env (paper.title.getD "未知标题")).1 ∧
    (analyze_paper env paper).1.authors = format_authors paper.creators ∧
    (analyze_paper env paper).1.collection_path =
      get_collection_path_field env paper := by
  unfold analyze_paper
  dsimp only
  split
  · exact ⟨rfl, rfl, rfl, rfl⟩
  · split <;> exact ⟨rfl, rfl, rfl, rfl⟩

theorem analyze_paper_congr (env env2 : AnalyzeEnv) (paper : Paper)
    (h1 : env2.analysisResponse = env.analysisResponse)
    (h2 : env2.jsonLoads = env.jsonLoads)
    (h3 : env2.truncate = env.truncate)
    (h4 : env2.pdfText = env.pdfText)
    (h5 : env2.collection_manager = env.collection_manager) :
    analyze_paper env2 paper =
      ({ (analyze_paper env paper).1 with
          translated_title :=
            (translate_title env2 (paper.title.getD "未知标题")).1 },
       (analyze_paper env paper).2) := by
  have hcall : ∀ t, call_llm_analysis env2 t = call_llm_analysis env t := by
    intro t
    unfold call_llm_analysis
    rw [h3]
    exact call_llm_go_congr env env2 (env.truncate t) h1 h2 max_retries false 0
  have hcp : get_collection_path_field env2 paper =
      get_collection_path_field env paper := by
    unfold get_collection_path_field
    rw [h5]
  have htr : (translate_title env2 (paper.title.getD "未知标题")).2 =
      (translate_title env (paper.title.getD "未知标题")).2 := by
    rw [translate_title_trace, translate_title_trace]
  unfold analyze_paper
  dsimp only
  rw [h4, hcp, hcall, htr]
  split
  · rfl
  · split <;> rfl

theorem analyze_paper_trace (env : AnalyzeEnv) (paper : Paper) :
    (analyze_paper env paper).2 =
      (translate_title env (paper.title.getD "未知标题")).2 ∨
    ∃ text, (analyze_paper env paper).2 =
      (translate_title env (paper.title.getD "未知标题")).2 ++
        (call_llm_analysis env text).2 := by
  unfold analyze_paper
  dsimp only
  split
  · exact Or.inl rfl
  · refine Or.inr
      ⟨if get_full_text env.pdfText paper.attachments ≠ ""
          then get_full_text env.pdfText paper.attachments
          else paper.abstractNote.getD "", ?_⟩
    split <;> (rename_i heq; rw [heq])

theorem degraded_result_abstract (T C d : String) :
    dictGet (degraded_result T C) "abstract" d = pyTake T 300 := rfl

theorem degraded_result_innovation (T C : String) :
    dictGet (degraded_result T C) "innovation_points" "" =
      "解析失败，原始响应: " ++ pyTake C 200 := rfl

theorem degraded_result_summary (T C : String) :
    dictGet (degraded_result T C) "summary" "" =
      "解析失败，原始响应: " ++ pyTake C 200 := rfl

/-! ## Theorems: per-record pipeline -/

/-- C10: in all three outcomes (success, no-text-content failure, hard
analysis failure) the AnalysisResult carries the same title,
translated_title, authors and collection_path: each equals a value
computed from the input record (and the translation and collection
oracles) before the analysis call, for every environment, hence
independently of how the analysis turns out. -/
theorem analyze_paper_metadata_invariant :
    ∀ (env : AnalyzeEnv) (paper : Paper),
      (analyze_paper env paper).1.title = paper.title.getD "未知标题" ∧
      (analyze_paper env paper).1.translated_title =
        (translate_title env (paper.title.getD "未知标题")).1 ∧
      (analyze_paper env paper).1.authors = format_authors paper.creators ∧
      (analyze_paper env paper).1.collection_path =
        get_collection_path_field env paper :=
  fun env paper => analyze_paper_field_values env paper

/-- C2 (amended): a record with no extracted text and an empty abstract
fails with the no-text-content reason 缺少文本内容 and no analysis call
is issued; the only generation call that can occur is the single
title-translation call, and none occurs when the title does not
classify as foreign-language. -/
theorem analyze_paper_no_text (env : AnalyzeEnv) (paper : Paper)
    (h1 : get_full_text env.pdfText paper.attachments = "")
    (h2 : paper.abstractNote.getD "" = "") :
    (analyze_paper env paper).1.error_message = "缺少文本内容" ∧
    (analyze_paper env paper).2 =
      (translate_title env (paper.title.getD "未知标题")).2 ∧
    (analyze_paper env paper).2.length ≤ 1 ∧
    (is_english_title (paper.title.getD "未知标题") = false →
      (analyze_paper env paper).2 = []) := by
  unfold analyze_paper
  dsimp only
  rw [h1, h2]
  rw [if_pos (And.intro rfl rfl)]
  refine ⟨rfl, rfl, ?_, ?_⟩
  · rw [translate_title_trace]
    split <;> simp
  · intro hf
    rw [translate_title_trace]
    simp [hf]

/-- Witness for C2 (amended) at a concrete record with a non-foreign
title, no attachments and an empty abstract: the no-text reason is set
and no generation call at all is made. -/
theorem analyze_paper_no_text_witness :
    (analyze_paper noTextEnv noTextChinesePaper).1.error_message =
      "缺少文本内容" ∧
    (analyze_paper noTextEnv noTextChinesePaper).2 = [] :=
  ⟨(analyze_paper_no_text noTextEnv noTextChinesePaper rfl rfl).1,
   (analyze_paper_no_text noTextEnv noTextChinesePaper rfl rfl).2.2.2
     (by decide)⟩

/-- Counterexample to C2 as stated: a record satisfying the claim
precondition (no extractable text, empty abstract) whose title
classifies as foreign-language; its processing still issues one
generation call (the title translation), so the generation-call count
is 1, not 0, even though the no-text reason is set. -/
theorem analyze_paper_no_text_translation_call :
    (analyze_paper noTextEnv noTextPaper).1.error_message = "缺少文本内容" ∧
    (analyze_paper noTextEnv noTextPaper).2.length = 1 := by
  constructor
  · rfl
  · rfl

/-- C3: when every analysis attempt yields a response that fails JSON
parsing, the pipeline synthesizes the degraded result: the abstract is
the first 300 characters of the truncated source text, the innovation
and summary fields are the parse-failure marker 解析失败，原始响应:
followed by the first 200 characters of the final unparsed response,
and the record counts as succeeded with an empty error_message. -/
theorem analyze_paper_parse_fail_degraded (env : AnalyzeEnv) (paper : Paper)
    (resp je : Nat → String)
    (hr : ∀ i, i < max_retries → env.analysisResponse i = Except.ok (resp i))
    (hp : ∀ i, i < max_retries →
      env.jsonLoads (strip_code_fences (pyStrip (resp i))) =
        Except.error (je i))
    (htext : ¬(get_full_text env.pdfText paper.attachments = "" ∧
      paper.abstractNote.getD "" = "")) :
    (analyze_paper env paper).1.abstract =
      pyTake (env.truncate (if get_full_text env.pdfText paper.attachments ≠ ""
          then get_full_text env.pdfText paper.attachments
          else paper.abstractNote.getD "")) 300 ∧
    (analyze_paper env paper).1.innovation_points =
      "解析失败，原始响应: " ++
        pyTake (strip_code_fences (pyStrip (resp 2))) 200 ∧
    (analyze_paper env paper).1.summary =
      "解析失败，原始响应: " ++
        pyTake (strip_code_fences (pyStrip (resp 2))) 200 ∧
    (analyze_paper env paper).1.error_message = "" := by
  unfold analyze_paper
  dsimp only
  rw [if_neg htext]
  rw [call_llm_all_parse_fail env _ resp je hr hp]
  dsimp only
  exact ⟨degraded_result_abstract _ _ _, degraded_result_innovation _ _,
    degraded_result_summary _ _, rfl⟩

/-- Witness for C3 at a concrete record and a stubbed generation
service whose responses never parse: the record reaches the succeeded
shape with the degraded fields. -/
theorem analyze_paper_parse_fail_degraded_witness :
    (analyze_paper parseFailEnv abstractOnlyPaper).1.error_message = "" ∧
    (analyze_paper parseFailEnv abstractOnlyPaper).1.innovation_points =
      "解析失败，原始响应: " ++
        pyTake (strip_code_fences (pyStrip "not a json object")) 200 ∧
    (analyze_paper parseFailEnv abstractOnlyPaper).1.abstract =
      pyTake "An abstract of the paper." 300 :=
  ⟨(analyze_paper_parse_fail_degraded parseFailEnv abstractOnlyPaper
      (fun _ => "not a json object")
      (fun _ => "Expecting value: line 1 column 1")
      (fun _ _ => rfl) (fun _ _ => rfl) (by decide)).2.2.2,
   (analyze_paper_parse_fail_degraded parseFailEnv abstractOnlyPaper
      (fun _ => "not a json object")
      (fun _ => "Expecting value: line 1 column 1")
      (fun _ _ => rfl) (fun _ _ => rfl) (by decide)).2.1,
   (analyze_paper_parse_fail_degraded parseFailEnv abstractOnlyPaper
      (fun _ => "not a json object")
      (fun _ => "Expecting value: line 1 column 1")
      (fun _ _ => rfl) (fun _ _ => rfl) (by decide)).1⟩

/-- C4 (evaluation at the failing input): the claim describes a
3-attempt retry, a 2-second pause after a non-final transport failure,
and propagation of the final transport fault into the record
error_message; in the source, the json import of analyzer.py line 377
is function-local and sits after the request inside the try block, so a
transport fault on the first attempt makes the except clause of line
388 itself raise UnboundLocalError, which propagates at once: the
analysis step makes exactly one request, never sleeps, never retries,
and what populates the record error_message is the UnboundLocalError
message rather than the transport fault (here connection reset 0). -/
theorem call_llm_first_transport_unbound_local :
    call_llm_analysis transportFailEnv "some text" =
      (Except.error unbound_local_error, [GenEvent.request 3 2000]) ∧
    (analyze_paper transportFailEnv abstractOnlyPaper).1.error_message =
      unbound_local_error :=
  ⟨rfl, rfl⟩

/-- C8: a foreign-classified title issues exactly one translation-only
generation call, with temperature 0.1 and a 200-token output cap; a
failing translation yields an empty translated title; and the whole of
the rest of the result (every field but translated_title) and the
event trace are unaffected by the translation outcome. -/
theorem translate_title_best_effort :
    (∀ (env : AnalyzeEnv) (paper : Paper),
      is_english_title (paper.title.getD "未知标题") = true →
      (analyze_paper env paper).2.count (GenEvent.request 1 200) = 1) ∧
    (∀ (env : AnalyzeEnv) (paper : Paper) (err : String),
      env.translationResponse = Except.error err →
      (analyze_paper env paper).1.translated_title = "") ∧
    (∀ (env env2 : AnalyzeEnv) (paper : Paper),
      env2.analysisResponse = env.analysisResponse →
      env2.jsonLoads = env.jsonLoads →
      env2.truncate = env.truncate →
      env2.pdfText = env.pdfText →
      env2.collection_manager = env.collection_manager →
      (analyze_paper env2 paper).1 =
        { (analyze_paper env paper).1 with
            translated_title :=
              (analyze_paper env2 paper).1.translated_title } ∧
      (analyze_paper env2 paper).2 = (analyze_paper env paper).2) := by
  refine ⟨?_, ?_, ?_⟩
  · intro env paper htitle
    have htr : (translate_title env (paper.title.getD "未知标题")).2 =
        [GenEvent.request 1 200] := by
      rw [translate_title_trace, if_pos htitle]
    rcases analyze_paper_trace env paper with h | ⟨text, h⟩
    · rw [h, htr]
      rfl
    · rw [h, List.count_append, htr]
      have hz : ((call_llm_analysis env text).2).count
          (GenEvent.request 1 200) = 0 := by
        rw [List.count_eq_zero]
        intro hmem
        rcases call_llm_go_events env (env.truncate text) max_retries false 0
          (GenEvent.request 1 200) hmem with hc | hc
        · exact absurd hc (by decide)
        · exact absurd hc (by decide)
      rw [hz]
      decide
  · intro env paper err herr
    rcases analyze_paper_field_values env paper with ⟨-, htrans, -, -⟩
    rw [htrans]
    exact translate_title_of_error env _ err herr
  · intro env env2 paper h1 h2 h3 h4 h5
    have h := analyze_paper_congr env env2 paper h1 h2 h3 h4 h5
    constructor
    · rw [h]
    · rw [h]

/-- Witness for C8 at a concrete English-titled record, once with a
failing and once with a succeeding translation stub. -/
theorem translate_title_best_effort_witness :
    (analyze_paper translationOkEnv englishPaper).2.count
      (GenEvent.request 1 200) = 1 ∧
    (analyze_paper translationFailEnv englishPaper).1.translated_title = "" ∧
    (analyze_paper translationOkEnv englishPaper).2 =
      (analyze_paper translationFailEnv englishPaper).2 :=
  ⟨translate_title_best_effort.1 translationOkEnv englishPaper (by decide),
   translate_title_best_effort.2.1 translationFailEnv englishPaper
     "translation transport fault" rfl,
   (translate_title_best_effort.2.2 translationFailEnv translationOkEnv
     englishPaper rfl rfl rfl rfl rfl).2⟩

/-! ## Theorems: collection resolver -/

theorem parent_walk_of_chain (colls : List ZoteroCollection) :
    ∀ (anc : List ZoteroCollection) (c : ZoteroCollection)
      (acc : List String) (fuel : Nat),
      AncestorChain colls c anc → anc.length ≤ fuel →
      parent_walk colls fuel c acc =
        (anc.map (fun a => a.name)).reverse ++ acc := by
  intro anc
  induction anc with
  | nil =>
    intro c acc fuel hch hlen
    cases fuel with
    | zero => simp [parent_walk]
    | succ n =>
      rcases hch with h | h
      · simp [parent_walk, h]
      · simp [parent_walk, h]
  | cons p rest ih =>
    intro c acc fuel hch hlen
    rcases hch with ⟨pk, hpk, hne, hfind, hrest⟩
    cases fuel with
    | zero => simp at hlen
    | succ n =>
      have hlen2 : rest.length ≤ n := by
        simp only [List.length_cons] at hlen
        omega
      simp only [parent_walk, hpk, hfind, if_neg hne]
      rw [ih p (p.name :: acc) n hrest hlen2]
      simp

theorem parent_walk_of_dangling (colls : List ZoteroCollection) :
    ∀ (anc : List ZoteroCollection) (c : ZoteroCollection)
      (acc : List String) (fuel : Nat),
      DanglingChain colls c anc → anc.length < fuel →
      parent_walk colls fuel c acc =
        (anc.map (fun a => a.name)).reverse ++ acc := by
  intro anc
  induction anc with
  | nil =>
    intro c acc fuel hch hlen
    rcases hch with ⟨pk, hpk, hne, hnone⟩
    cases fuel with
    | zero => simp at hlen
    | succ n =>
      simp [parent_walk, hpk, hnone, if_neg hne]
  | cons p rest ih =>
    intro c acc fuel hch hlen
    rcases hch with ⟨pk, hpk, hne, hfind, hrest⟩
    cases fuel with
    | zero => simp at hlen
    | succ n =>
      have hlen2 : rest.length < n := by
        simp only [List.length_cons] at hlen
        omega
      simp only [parent_walk, hpk, hfind, if_neg hne]
      rw [ih p (p.name :: acc) n hrest hlen2]
      simp

/-- C6: for a collection whose ancestor chain fully resolves,
get_collection_path returns the names from the root down to the
collection itself joined by " / ", with depth + 1 segments, the last
being the collection name; when a parent lookup fails mid-walk
the partial path accumulated so far is returned; an unknown key yields
the empty path. -/
theorem get_collection_path_spec :
    ∀ (colls : List ZoteroCollection) (key : String),
      (∀ (c : ZoteroCollection) (anc : List ZoteroCollection),
        find_collection colls key = some c →
        AncestorChain colls c anc →
        anc.length ≤ colls.length →
        get_collection_path colls key =
          String.intercalate " / "
            ((anc.map (fun a => a.name)).reverse ++ [c.name]) ∧
        ((anc.map (fun a => a.name)).reverse ++ [c.name]).length =
          anc.length + 1 ∧
        ((anc.map (fun a => a.name)).reverse ++ [c.name]).getLast? =
          some c.name) ∧
      (∀ (c : ZoteroCollection) (anc : List ZoteroCollection),
        find_collection colls key = some c →
        DanglingChain colls c anc →
        anc.length < colls.length →
        get_collection_path colls key =
          String.intercalate " / "
            ((anc.map (fun a => a.name)).reverse ++ [c.name])) ∧
      (find_collection colls key = none →
        get_collection_path colls key = "") := by
  intro colls key
  refine ⟨?_, ?_, ?_⟩
  · intro c anc hfind hch hlen
    refine ⟨?_, ?_, ?_⟩
    · unfold get_collection_path
      rw [hfind]
      dsimp only
      rw [parent_walk_of_chain colls anc c [c.name] colls.length hch hlen]
    · simp
    · simp
  · intro c anc hfind hch hlen
    unfold get_collection_path
    rw [hfind]
    dsimp only
    rw [parent_walk_of_dangling colls anc c [c.name] colls.length hch hlen]
  · intro hnone
    unfold get_collection_path
    rw [hnone]

/-- Witness for C6 on the concrete forest: the fully resolvable leaf
gets the root-to-leaf path with 3 segments, an unknown key gets the
empty path, and the collection with a dangling parent gets the partial
path consisting of its own name. -/
theorem get_collection_path_spec_witness :
    get_collection_path demoCollections "L" = "Root / Mid / Leaf" ∧
    get_collection_path demoCollections "Z" = "" ∧
    get_collection_path demoCollections "D" = "Dangling" := by
  refine ⟨?_, ?_, ?_⟩
  · have h := ((get_collection_path_spec demoCollections "L").1
      { key := "L", name := "Leaf", parent_key := some "M" }
      [{ key := "M", name := "Mid", parent_key := some "R" },
       { key := "R", name := "Root", parent_key := none }]
      rfl ⟨"M", rfl, by decide, rfl, "R", rfl, by decide, rfl, Or.inl rfl⟩
      (by decide)).1
    rw [h]
    rfl
  · exact (get_collection_path_spec demoCollections "Z").2.2 rfl
  · have h := (get_collection_path_spec demoCollections "D").2.1
      { key := "D", name := "Dangling", parent_key := some "X" } []
      rfl ⟨"X", rfl, by decide, rfl⟩ (by decide)
    rw [h]
    rfl

/-! ## Theorems: batch runner -/

/-- C1 (evaluation at the failing input): in a 5-record batch where
processing of record 3 raises, the per-record exception handler itself
raises TypeError while building its synthetic error result — it passes
the keyword original_abstract, which the PaperAnalysis dataclass does
not declare — so the batch aborts with that TypeError instead of
returning five results. -/
theorem analyze_papers_batch_handler_crash :
    analyze_papers_batch batchDemoAnalyze
        [batchDemoPaper 1, batchDemoPaper 2, batchDemoPaper 3,
         batchDemoPaper 4, batchDemoPaper 5] =
      Except.error "TypeError: unexpected keyword argument original_abstract" := by
  rfl
